import Mathlib

/-!
Verification development for the gala-platform job execution pipeline.

The Go sources of the repository are shallowly embedded below:
pure helpers become Lean functions on `List Char` / `String`,
Go maps (`map[string]T`) become association lists with overwrite
insertion (`GoMap`), the relational catalog becomes an explicit
record of row lists, and the worker pipeline (`ProcessJob` and its
components) becomes a state-passing function parameterised by an
environment that fixes the outcomes of the external effects
(local filesystem stat, storage-provider put/get, renderer call).
-/

namespace Gala

/-! ## Strings as character lists: Go `strings` helpers -/

/-- Characters treated as white space by Go's `unicode.IsSpace`
(restricted to the Latin-1 range actually reachable in this code base). -/
def isGoSpace (c : Char) : Bool :=
  c = (' ') || c = ('\t') || c = ('\n') || c = ('\x0b') || c = ('\x0c') ||
  c = ('\r') || c = ('\x85') || c = ('\xa0')

/-- Core of Go `strings.TrimSpace` on a character list: drop white space
from both ends. -/
def trimSpaceCore (cs : List Char) : List Char :=
  ((cs.dropWhile isGoSpace).reverse.dropWhile isGoSpace).reverse

/-- Go `strings.TrimSpace`. -/
def goTrim (s : String) : String :=
  String.mk (trimSpaceCore s.data)

/-- Go `strings.ToLower`, restricted to ASCII as used by this code base. -/
def goLower (s : String) : String :=
  String.mk (s.data.map Char.toLower)

/-- Go `strings.ReplaceAll(s, "..", "")` on a character list: scan left to
right, removing non-overlapping occurrences of two consecutive dots and
continuing after each removed occurrence. -/
def removeDotDot : List Char → List Char
  | [] => []
  | [c] => [c]
  | c :: d :: rest =>
    if c = ('.') ∧ d = ('.') then removeDotDot rest
    else c :: removeDotDot (d :: rest)

/-- Go `strings.ReplaceAll(s, old, new)` for a single-character pattern and
single-character replacement is a character-wise map. -/
def replaceChar (a b : Char) (cs : List Char) : List Char :=
  cs.map (fun c => if c = a then b else c)

/-! ## Go maps

A Go `map[string]V` is embedded as an association list whose keys are
distinct; `setKey` is assignment `m[k] = v` (overwrite or append),
`lookupG` is read access `m[k]`, and `copyInto` is the
`for k, v := range src { dst[k] = v }` loop. -/

abbrev GoMap (V : Type) := List (String × V)

/-- Go map assignment `m[k] = v`. -/
def setKey {V : Type} : GoMap V → String → V → GoMap V
  | [], k, v => [(k, v)]
  | (k', v') :: rest, k, v =>
    if k' = k then (k, v) :: rest else (k', v') :: setKey rest k v

/-- Go map read `m[k]` (first binding; with distinct keys the only one). -/
def lookupG {V : Type} : GoMap V → String → Option V
  | [], _ => none
  | (k', v) :: rest, k => if k' = k then some v else lookupG rest k

/-- Last binding of a key in an association list; with overwrite insertion
this is the binding that survives a copy loop. -/
def lookupLast {V : Type} : GoMap V → String → Option V
  | [], _ => none
  | (k', v) :: rest, k =>
    match lookupLast rest k with
    | some w => some w
    | none => if k' = k then some v else none

/-- The loop `for k, v := range src { dst[k] = v }` of Go, folded over the
source bindings. -/
def copyInto {V : Type} (dst : GoMap V) (src : GoMap V) : GoMap V :=
  src.foldl (fun acc kv => setKey acc kv.1 kv.2) dst

/-- The first option if present, otherwise the second. -/
def firstSome {V : Type} : Option V → Option V → Option V
  | some v, _ => some v
  | none, b => b

/-- mergeMaps of the job parser (src/unnamed/part_011): a fresh map receives
the base bindings, then the override bindings. -/
def mergeMaps {V : Type} (base override : GoMap V) : GoMap V :=
  copyInto (copyInto [] base) override

/-! ## helpers_utils.go -/

/-- SanitizeFilename (src/backend/internal/worker/processor/helpers_utils.go):
trim, delete dot-dot pairs, replace slash, backslash and space by
underscore, and fall back to the name input when nothing remains. -/
def sanitizeCore (cs : List Char) : List Char :=
  let s1 := trimSpaceCore cs
  let s2 := removeDotDot s1
  let s3 := replaceChar ('/') ('_') s2
  let s4 := replaceChar ('\\') ('_') s3
  let s5 := replaceChar (' ') ('_') s4
  if s5 = [] then ("input").data else s5

/-- String wrapper of `sanitizeCore`. -/
def sanitizeFilename (s : String) : String :=
  String.mk (sanitizeCore s.data)

/-- ExtFromMime (helpers_utils.go): extension chosen by MIME type. -/
def extFromMime (mime : String) : String :=
  let m := goLower (goTrim mime)
  if m = ("image/jpeg") ∨ m = ("image/jpg") then (".jpg")
  else if m = ("image/png") then (".png")
  else if m = ("audio/wav") ∨ m = ("audio/x-wav") then (".wav")
  else if m = ("audio/mpeg") ∨ m = ("audio/mp3") then (".mp3")
  else if m = ("video/mp4") then (".mp4")
  else if m = ("text/vtt") then (".vtt")
  else ("")

/-- NullIfEmpty (helpers_utils.go): nil for a blank string, useful for
nullable DB columns. -/
def nullIfEmpty (s : String) : Option String :=
  if goTrim s = ("") then none else some s

/-! ## JSON values

`map[string]any` values produced by `json.Unmarshal` are embedded as a
small JSON value type; Go numbers (`float64`) only ever meet the literal
comparison `== 1` in this code base, so integers suffice. -/

inductive JVal where
  | jnull
  | jbool (b : Bool)
  | jnum (n : Int)
  | jstr (s : String)
  | jarr (elems : List JVal)
  | jobj (fields : List (String × JVal))

/-- IsTruthy (helpers_utils.go): true, numeric one, or one of the strings
1, true, yes, on after trimming and lowering. -/
def isTruthy : JVal → Bool
  | .jbool b => b
  | .jnum n => n = 1
  | .jstr s =>
    let t := goLower (goTrim s)
    t = ("1") || t = ("true") || t = ("yes") || t = ("on")
  | _ => false

/-! ## Catalog rows (infra/postgres/init.sql) -/

inductive JobStatus
  | QUEUED
  | RUNNING
  | DONE
  | FAILED
deriving DecidableEq

/-- A row of the jobs table. `rawParams` is the decoded `params_json`
(none models a malformed JSON text); timestamps are not modelled. -/
structure JobRow where
  id : String
  status : JobStatus
  rawParams : Option (GoMap JVal)
  errorText : Option String := none

structure AssetRow where
  id : String
  kind : String
  provider : String
  objectKey : String
  mime : String
  sizeBytes : Int
deriving DecidableEq

structure JobOutputRow where
  id : String
  jobId : String
  variant : Int
  videoAssetId : String
  thumbnailAssetId : String
  captionsAssetId : Option String
deriving DecidableEq

/-- A row of the templates table; `defaults` is the decoded JSONB object
(none models a NULL column, read back as an empty object through
COALESCE), `deleted` models a non-NULL `deleted_at`. -/
structure TemplateRow where
  id : String
  deleted : Bool
  defaults : Option (GoMap JVal)

structure DB where
  jobs : List JobRow
  assets : List AssetRow
  jobOutputs : List JobOutputRow
  templates : List TemplateRow

/-! ## Job parser (src/unnamed/part_011) -/

structure ParsedJob where
  templateID : String := ("")
  inputs : GoMap String := []
  params : GoMap JVal := []
  mergedParams : GoMap JVal := []
  hasEnvelope : Bool := false

inductive ParseErr
  | invalidParamsJson
  | templateNotFound (id : String)
  | textRequired
deriving DecidableEq

/-- hasValidText: `params.text` must be a string that is non-blank after
trimming. -/
def hasValidText (m : GoMap JVal) : Bool :=
  match lookupG m ("text") with
  | some (.jstr t) => !(goTrim t = (""))
  | _ => false

/-- fetchTemplateDefaults: `SELECT COALESCE(defaults, empty object) FROM
templates WHERE id = $1 AND deleted_at IS NULL`; a missing or deleted row
is a template-not-found error. -/
def fetchTemplateDefaults (db : DB) (templateID : String) : Except ParseErr (GoMap JVal) :=
  match db.templates.find? (fun t => t.id = templateID && !t.deleted) with
  | some t => .ok (t.defaults.getD [])
  | none => .error (.templateNotFound templateID)

/-- The inputs-extraction loop of parseEnvelopeFormat: keep string values
that are non-blank after trimming, trimmed. -/
def extractInputs (im : List (String × JVal)) : GoMap String :=
  im.foldl
    (fun acc kv =>
      match kv.2 with
      | .jstr s => if goTrim s = ("") then acc else setKey acc kv.1 (goTrim s)
      | _ => acc)
    []

/-- parseEnvelopeFormat: extract params and inputs from the envelope, read
the template defaults, merge (job params win), then require a valid text. -/
def parseEnvelopeFormat (db : DB) (raw : GoMap JVal) (templateID : String) :
    Except ParseErr ParsedJob :=
  let params : GoMap JVal :=
    match lookupG raw ("params") with
    | some (.jobj pm) => pm
    | _ => []
  let inputs : GoMap String :=
    match lookupG raw ("inputs") with
    | some (.jobj im) => extractInputs im
    | _ => []
  match fetchTemplateDefaults db templateID with
  | .error e => .error e
  | .ok defaults =>
    let merged := mergeMaps defaults params
    if hasValidText merged then
      .ok { templateID := templateID, inputs := inputs, params := params,
            mergedParams := merged, hasEnvelope := true }
    else .error .textRequired

/-- parseLegacyFormat: every raw field goes directly into mergedParams. -/
def parseLegacyFormat (raw : GoMap JVal) : Except ParseErr ParsedJob :=
  let merged := copyInto [] raw
  if hasValidText merged then .ok { mergedParams := merged }
  else .error .textRequired

/-- JobParser.Parse: envelope format when `template_id` is a non-blank
string, legacy format otherwise. -/
def parseJob (db : DB) (raw : GoMap JVal) : Except ParseErr ParsedJob :=
  match lookupG raw ("template_id") with
  | some (.jstr t) =>
    if goTrim t = ("") then parseLegacyFormat raw
    else parseEnvelopeFormat db raw (goTrim t)
  | _ => parseLegacyFormat raw

/-- ParsedJob.CaptionsEnabled: truthiness of the merged captions flag
(a missing key is Go's nil interface, which is not truthy). -/
def captionsEnabled (pj : ParsedJob) : Bool :=
  match lookupG pj.mergedParams ("captions") with
  | some v => isTruthy v
  | none => false

/-! ## Output keys (helpers_utils.go GenerateOutputKeys) -/

def videoKeyOf (jobID : String) : String := ("renders/") ++ jobID ++ ("/hello.mp4")

def thumbKeyOf (jobID : String) : String := ("renders/") ++ jobID ++ ("/hello.jpg")

def captionsKeyOf (jobID : String) : String := ("renders/") ++ jobID ++ ("/captions.vtt")

structure OutputKeys where
  video : String
  thumb : String
  captions : String
deriving DecidableEq

def generateOutputKeys (jobID : String) (captionsOn : Bool) : OutputKeys :=
  { video := videoKeyOf jobID, thumb := thumbKeyOf jobID,
    captions := if captionsOn then captionsKeyOf jobID else ("") }

/-! ## Storage providers -/

structure PutIn where
  objectKey : String
  contentType : String
  size : Int

structure PutOut where
  objectKey : String
  size : Int
deriving DecidableEq

/-- gdrive.PutObject (src/backend/internal/adapters/storage/gdrive/gdrive.go):
requires a non-empty key, uploads, and returns the Drive-assigned file id
`createdId` as the effective object key. -/
def gdrivePutObject (createdId : String) (inp : PutIn) : Except String PutOut :=
  if inp.objectKey = ("") then .error ("object_key is required")
  else .ok { objectKey := createdId, size := inp.size }

/-- Go `strings.TrimPrefix(s, slash)`: remove one leading slash when
present. -/
def dropLeadingSlash (s : String) : String :=
  match s.data with
  | ('/') :: rest => String.mk rest
  | _ => s

/-- filepath.Join for a root and a relative key; for the dot-free inputs of
this code base Join is plain concatenation with a separator. -/
def filepathJoin (a b : String) : String := a ++ ("/") ++ b

/-- localfs abs (src/backend/internal/adapters/storage/localfs/localfs.go). -/
def localfsAbs (root key : String) : String :=
  filepathJoin root (dropLeadingSlash key)

/-- Model of `os.Remove` over the set of existing file paths: removing an
absent path fails with a not-exist path error. -/
def osRemove (fs : List String) (p : String) : Except String (List String) :=
  if p ∈ fs then .ok (fs.erase p)
  else .error (("remove ") ++ p ++ (": no such file or directory"))

/-- localfs.DeleteObject: a bare `os.Remove` of the resolved path. -/
def localfsDeleteObject (fs : List String) (root key : String) :
    Except String (List String) :=
  osRemove fs (localfsAbs root key)

/-! ## Worker pipeline (src/backend/internal/worker/processor) -/

/-- The ids drawn from util.NewID during one run, in draw order. -/
structure IdSupply where
  outId : String
  videoAstId : String
  thumbAstId : String
  captionsAstId : String

/-- Environment of one ProcessJob run: the staging filesystem (the set of
object keys that have a local file under the storage root, with sizes),
the storage provider's put/get outcomes, the provider label, the cleanup
flag, and the renderer outcome. Database statements are assumed to reach
the pool; local-file cleanup touches only the staging filesystem and
never the catalog, so it does not appear in the catalog state. -/
structure Env where
  storageRoot : String
  fs : List String
  fileSize : String → Int
  put : PutIn → Except String PutOut
  getOk : String → Bool
  provider : String
  cleanupLocal : Bool
  renderOk : Bool
  ids : IdSupply

inductive RegErr
  | fileNotFound (key : String)
  | uploadFailed (key : String)
deriving DecidableEq

/-- OutputHandler.registerAsset (output_handler.go): stat the local file,
put it to the provider, and insert an asset row whose object_key is the
key returned by the put (the effective key). Every insert is an immediate
committed side effect on the catalog, so the possibly-updated catalog is
returned even on failure. The best-effort local-file cleanup that follows
the insert only touches the staging filesystem. -/
def registerAsset (env : Env) (db : DB) (kind mime objectKey astId : String) :
    DB × Except RegErr (String × Int) :=
  if objectKey ∈ env.fs then
    match env.put { objectKey := objectKey, contentType := mime, size := env.fileSize objectKey } with
    | .ok out =>
      ({ db with assets := db.assets ++
              [{ id := astId, kind := kind, provider := env.provider,
                 objectKey := out.objectKey, mime := mime, sizeBytes := out.size }] },
       .ok (astId, out.size))
    | .error _ => (db, .error (.uploadFailed objectKey))
  else (db, .error (.fileNotFound objectKey))

structure OutputResult where
  outputId : String
  videoAssetId : String
  thumbAssetId : String
  captionsAssetId : String
deriving DecidableEq

/-- OutputHandler.RegisterOutputs: video then thumbnail, then captions only
when the job used the envelope, captions are enabled, a captions key was
generated, and the local captions file exists. A failure part-way leaves
the asset rows already inserted in the catalog. -/
def registerOutputs (env : Env) (db : DB) (keys : OutputKeys) (usedV1 captionsOn : Bool) :
    DB × Except RegErr OutputResult :=
  match registerAsset env db ("render_output") ("video/mp4") keys.video env.ids.videoAstId with
  | (db1, .error e) => (db1, .error e)
  | (db1, .ok (vid, _)) =>
    match registerAsset env db1 ("thumbnail") ("image/jpeg") keys.thumb env.ids.thumbAstId with
    | (db2, .error e) => (db2, .error e)
    | (db2, .ok (tid, _)) =>
      if usedV1 = true ∧ captionsOn = true ∧ keys.captions ≠ ("") then
        if keys.captions ∈ env.fs then
          match registerAsset env db2 ("captions") ("text/vtt") keys.captions env.ids.captionsAstId with
          | (db3, .error e) => (db3, .error e)
          | (db3, .ok (cid, _)) =>
            (db3, .ok { outputId := env.ids.outId, videoAssetId := vid,
                        thumbAssetId := tid, captionsAssetId := cid })
        else
          (db2, .ok { outputId := env.ids.outId, videoAssetId := vid,
                      thumbAssetId := tid, captionsAssetId := ("") })
      else
        (db2, .ok { outputId := env.ids.outId, videoAssetId := vid,
                    thumbAssetId := tid, captionsAssetId := ("") })

inductive MatErr
  | assetNotFound (inputName assetId : String)
  | downloadFailed (inputName assetId : String)
deriving DecidableEq

def inputsBaseDir (storageRoot jobID : String) : String :=
  storageRoot ++ ("/jobs/") ++ jobID ++ ("/inputs")

/-- InputHandler.materializeInput (input_handler.go): read the asset row,
open the provider stream at its object key, and write it to the sanitized
local path (file creation and copy are assumed to succeed once the
download stream is open). -/
def materializeOne (env : Env) (db : DB) (baseDir inputName assetId : String) :
    Except MatErr String :=
  match db.assets.find? (fun a => a.id = assetId) with
  | none => .error (.assetNotFound inputName assetId)
  | some a =>
    if env.getOk a.objectKey then
      .ok (baseDir ++ ("/") ++ sanitizeFilename inputName ++ extFromMime a.mime)
    else .error (.downloadFailed inputName assetId)

/-- The loop of InputHandler.Materialize: blank asset ids are skipped, the
first failing input aborts the loop. -/
def materializeLoop (env : Env) (db : DB) (baseDir : String) :
    List (String × String) → GoMap String → Except MatErr (GoMap String)
  | [], acc => .ok acc
  | (name, aid) :: rest, acc =>
    if goTrim aid = ("") then materializeLoop env db baseDir rest acc
    else
      match materializeOne env db baseDir name (goTrim aid) with
      | .error e => .error e
      | .ok p => materializeLoop env db baseDir rest (setKey acc name p)

def materialize (env : Env) (db : DB) (jobID : String) (inputs : GoMap String) :
    Except MatErr (GoMap String) :=
  materializeLoop env db (inputsBaseDir env.storageRoot jobID) inputs []

/-- The renderer invocation built by RendererAdapter.Render
(renderer_adapter.go): the v1 body carries template id, input paths and a
captions key iff captions are enabled; the v0 body carries just the merged
params and the two mandatory keys. -/
inductive RendererCall where
  | v0 (jobId : String) (params : GoMap JVal) (videoKey thumbKey : String)
  | v1 (jobId templateId : String) (inputs : GoMap String) (params : GoMap JVal)
       (videoKey thumbKey : String) (captionsKey : Option String)

def mkRendererCall (jobID : String) (pj : ParsedJob) (inputPaths : GoMap String)
    (keys : OutputKeys) : RendererCall :=
  if pj.hasEnvelope then
    .v1 jobID pj.templateID inputPaths pj.mergedParams keys.video keys.thumb
      (if captionsEnabled pj then some keys.captions else none)
  else
    .v0 jobID pj.mergedParams keys.video keys.thumb

def callParams : RendererCall → GoMap JVal
  | .v0 _ p _ _ => p
  | .v1 _ _ _ p _ _ _ => p

inductive PErr
  | fetchFailed
  | parseFailed (e : ParseErr)
  | missingAvatarInput
  | inputsFailed (e : MatErr)
  | renderFailed
  | outputsFailed (e : RegErr)
deriving DecidableEq

/-- Result of one ProcessJob run: the catalog afterwards, the sequence of
status values written to the job row, the renderer invocations made, and
the returned error if any. -/
structure RunResult where
  db : DB
  statusWrites : List JobStatus
  rendererCalls : List RendererCall
  outcome : Option PErr

/-- failJob truncates the persisted error text to 2000 characters. -/
def truncateErr (msg : String) : String :=
  if msg.length > 2000 then String.mk (msg.data.take 2000) else msg

def updateJob (db : DB) (jobID : String) (f : JobRow → JobRow) : DB :=
  { db with jobs := db.jobs.map (fun j => if j.id = jobID then f j else j) }

/-- markJobRunning (processor.go): an unconditional UPDATE that sets
RUNNING and clears error_text, with no guard on the present status. -/
def markJobRunning (db : DB) (jobID : String) : DB :=
  updateJob db jobID (fun j => { j with status := .RUNNING, errorText := none })

def markJobDone (db : DB) (jobID : String) : DB :=
  updateJob db jobID (fun j => { j with status := .DONE })

def failJob (db : DB) (jobID : String) (msg : String) : DB :=
  updateJob db jobID (fun j => { j with status := .FAILED, errorText := some (truncateErr msg) })

def findJob (db : DB) (jobID : String) : Option JobRow :=
  db.jobs.find? (fun j => j.id = jobID)

def jobStatus (db : DB) (jobID : String) : Option JobStatus :=
  (findJob db jobID).map (fun j => j.status)

/-- Steps 2 to 9 of ProcessJob after a successful parse: unconditional
RUNNING, output keys, input materialization for envelope jobs, renderer,
output registration, job_outputs insert, cleanup (staging only), DONE. -/
def processJobParsed (env : Env) (db : DB) (jobID : String) (pj : ParsedJob) : RunResult :=
  let db1 := markJobRunning db jobID
  let keys := generateOutputKeys jobID (captionsEnabled pj)
  match (if pj.hasEnvelope then materialize env db1 jobID pj.inputs else .ok []) with
  | .error e =>
    { db := failJob db1 jobID ("processor.inputs: failed to materialize inputs"),
      statusWrites := [.RUNNING, .FAILED], rendererCalls := [],
      outcome := some (.inputsFailed e) }
  | .ok inputPaths =>
    let call := mkRendererCall jobID pj inputPaths keys
    if env.renderOk then
      match registerOutputs env db1 keys pj.hasEnvelope (captionsEnabled pj) with
      | (db2, .error e) =>
        { db := failJob db2 jobID ("processor.outputs: failed to register outputs"),
          statusWrites := [.RUNNING, .FAILED], rendererCalls := [call],
          outcome := some (.outputsFailed e) }
      | (db2, .ok res) =>
        let row : JobOutputRow :=
          { id := res.outputId, jobId := jobID, variant := 1,
            videoAssetId := res.videoAssetId, thumbnailAssetId := res.thumbAssetId,
            captionsAssetId := nullIfEmpty res.captionsAssetId }
        let db3 := { db2 with jobOutputs := db2.jobOutputs ++ [row] }
        { db := markJobDone db3 jobID,
          statusWrites := [.RUNNING, .DONE], rendererCalls := [call], outcome := none }
    else
      { db := failJob db1 jobID ("processor.render: render failed"),
        statusWrites := [.RUNNING, .FAILED], rendererCalls := [call],
        outcome := some .renderFailed }

/-- Processor.ProcessJob (processor.go): fetch the params row, parse it,
require the avatar input for envelope jobs, then run the pipeline. At no
point is the current status of the job row consulted. -/
def processJob (env : Env) (db : DB) (jobID : String) : RunResult :=
  match findJob db jobID with
  | none =>
    { db := failJob db jobID ("processor.fetch: failed to fetch job params"),
      statusWrites := [.FAILED], rendererCalls := [], outcome := some .fetchFailed }
  | some row =>
    match row.rawParams with
    | none =>
      { db := failJob db jobID ("processor.parse: failed to parse job params"),
        statusWrites := [.FAILED], rendererCalls := [],
        outcome := some (.parseFailed .invalidParamsJson) }
    | some raw =>
      match parseJob db raw with
      | .error e =>
        { db := failJob db jobID ("processor.parse: failed to parse job params"),
          statusWrites := [.FAILED], rendererCalls := [],
          outcome := some (.parseFailed e) }
      | .ok pj =>
        if pj.hasEnvelope = true ∧ goTrim ((lookupG pj.inputs ("avatar_image_asset_id")).getD ("")) = ("") then
          { db := failJob db jobID ("inputs.avatar_image_asset_id: missing required input"),
            statusWrites := [.FAILED], rendererCalls := [],
            outcome := some .missingAvatarInput }
        else
          processJobParsed env db jobID pj

/-! ## Queue (src/unnamed/part_013) and worker loop (src/unnamed/part_009) -/

/-- Outcome of the underlying Redis BRPOP with zero Redis-side timeout
under a context that carries a 30-second deadline: either an element
arrives as a key-value reply, or the context deadline expires first, in
which case the go-redis command surfaces the context error. -/
inductive PopCtxOutcome
  | elementArrived (reply : List String)
  | deadlineExceeded
deriving DecidableEq

def brpopResult : PopCtxOutcome → Except String (List String)
  | .elementArrived r => .ok r
  | .deadlineExceeded => .error ("context deadline exceeded")

/-- RedisQueue.Pop: propagate the BRPOP error, return empty on a short
reply, otherwise return the second reply element (the job id). -/
def redisQueuePop (o : PopCtxOutcome) : Except String String :=
  match brpopResult o with
  | .error e => .error e
  | .ok res => if res.length < 2 then .ok ("") else .ok ((res[1]?).getD (""))

inductive WorkerAction
  | stopCancelled
  | retryAfterSleep
  | reenterEmpty
  | processJobId (id : String)
deriving DecidableEq

/-- One decision of the worker supervision loop (part_009) on a pop result:
errors stop the loop only when the parent context is cancelled and
otherwise log, sleep one second and retry; an empty id re-enters at once;
otherwise the job is processed. -/
def workerHandlePop (parentCancelled : Bool) (popResult : Except String String) :
    WorkerAction :=
  match popResult with
  | .error _ => if parentCancelled then .stopCancelled else .retryAfterSleep
  | .ok jobID => if jobID = ("") then .reenterEmpty else .processJobId jobID

/-! ## HTTP job submission (src/backend/internal/httpapi/handlers/jobs.go) -/

/-- The decoded POST /jobs body; `params` is none for a JSON null map,
which the handler replaces by an empty map. -/
structure CreateJobReq where
  name : String
  params : Option (GoMap JVal)

inductive PostJobOutcome
  | validationError (message field : String)
  | createdOk (jobId : String)
deriving DecidableEq

structure ApiState where
  db : DB
  queue : List String

/-- PostJob: reject undecodable bodies, require only the presence of the
text key in params, then insert the QUEUED row and LPUSH the job id
(database and queue are assumed available). -/
def postJob (st : ApiState) (newJobId : String) (body : Option CreateJobReq) :
    ApiState × PostJobOutcome :=
  match body with
  | none => (st, .validationError ("invalid json body") (""))
  | some req =>
    let params := req.params.getD []
    match lookupG params ("text") with
    | none => (st, .validationError ("params.text is required") ("params.text"))
    | some _ =>
      let row : JobRow := { id := newJobId, status := .QUEUED, rawParams := some params }
      ({ db := { st.db with jobs := st.db.jobs ++ [row] },
         queue := newJobId :: st.queue },
       .createdOk newJobId)

/-! ## Auxiliary predicates used by the statements -/

/-- The key list of an embedded Go map; a real Go map has distinct keys. -/
def keysOf {V : Type} (m : GoMap V) : List String := m.map Prod.fst

/-- No two adjacent dots anywhere in the character list. -/
def noDD : List Char → Bool
  | [] => true
  | [_] => true
  | c :: d :: rest =>
    if c = ('.') ∧ d = ('.') then false else noDD (d :: rest)

/-- The text fields of the params objects sent to the renderer during a
run, in call order. -/
def sentTexts (r : RunResult) : List String :=
  r.rendererCalls.map (fun c =>
    match lookupG (callParams c) ("text") with
    | some (.jstr s) => s
    | _ => (""))

/-- A BRPOP outcome whose reply has fewer than the two elements of a
key-value pair. -/
def isShortReply : PopCtxOutcome → Bool
  | .elementArrived r => r.length < 2
  | .deadlineExceeded => false

/-! ## Concrete fixtures for witnesses and counterexamples -/

def dbEmpty : DB := { jobs := [], assets := [], jobOutputs := [], templates := [] }

/-- A catalog in which job_1 already finished: DONE with one output row. -/
def dbC1 : DB :=
  { jobs := [{ id := ("job_1"), status := .DONE,
               rawParams := some [(("text"), .jstr ("HELLO"))] }],
    assets := [{ id := ("ast_1"), kind := ("render_output"), provider := ("localfs"),
                 objectKey := ("renders/job_1/hello.mp4"), mime := ("video/mp4"),
                 sizeBytes := 5 },
               { id := ("ast_2"), kind := ("thumbnail"), provider := ("localfs"),
                 objectKey := ("renders/job_1/hello.jpg"), mime := ("image/jpeg"),
                 sizeBytes := 3 }],
    jobOutputs := [{ id := ("out_1"), jobId := ("job_1"), variant := 1,
                     videoAssetId := ("ast_1"), thumbnailAssetId := ("ast_2"),
                     captionsAssetId := none }],
    templates := [] }

def envC1 : Env :=
  { storageRoot := ("/data"),
    fs := [("renders/job_1/hello.mp4"), ("renders/job_1/hello.jpg")],
    fileSize := fun _ => 5,
    put := fun inp => .ok { objectKey := inp.objectKey, size := inp.size },
    getOk := fun _ => true, provider := ("localfs"), cleanupLocal := false,
    renderOk := true,
    ids := { outId := ("out_2"), videoAstId := ("ast_3"), thumbAstId := ("ast_4"),
             captionsAstId := ("ast_5") } }

/-- A remote-provider environment whose put substitutes the key. -/
def envC2 : Env :=
  { storageRoot := ("/data"), fs := [("renders/job_9/hello.mp4")],
    fileSize := fun _ => 7,
    put := fun inp => gdrivePutObject ("DRIVE-123") inp,
    getOk := fun _ => true, provider := ("gdrive"), cleanupLocal := true,
    renderOk := true,
    ids := { outId := ("out_9"), videoAstId := ("ast_9"), thumbAstId := ("ast_10"),
             captionsAstId := ("ast_11") } }

/-- The enveloped params payload used by the template-edit scenario. -/
def rawC3 : GoMap JVal :=
  [(("template_id"), .jstr ("tpl_1")),
   (("params"), .jobj []),
   (("inputs"), .jobj [(("avatar_image_asset_id"), .jstr ("ast_A"))])]

def avatarAssetRow : AssetRow :=
  { id := ("ast_A"), kind := ("uploaded"), provider := ("localfs"),
    objectKey := ("assets/ast_A/original.png"), mime := ("image/png"), sizeBytes := 11 }

/-- Catalog at worker-parse time when the template still has text A. -/
def dbC3A : DB :=
  { jobs := [{ id := ("job_3"), status := .QUEUED, rawParams := some rawC3 }],
    assets := [avatarAssetRow], jobOutputs := [],
    templates := [{ id := ("tpl_1"), deleted := false,
                    defaults := some [(("text"), .jstr ("A"))] }] }

/-- The same catalog after the template defaults were edited to text B. -/
def dbC3B : DB :=
  { jobs := [{ id := ("job_3"), status := .QUEUED, rawParams := some rawC3 }],
    assets := [avatarAssetRow], jobOutputs := [],
    templates := [{ id := ("tpl_1"), deleted := false,
                    defaults := some [(("text"), .jstr ("B"))] }] }

def envC3 : Env :=
  { storageRoot := ("/data"), fs := [],
    fileSize := fun _ => 0,
    put := fun inp => .ok { objectKey := inp.objectKey, size := inp.size },
    getOk := fun _ => true, provider := ("localfs"), cleanupLocal := false,
    renderOk := false,
    ids := { outId := ("out_3"), videoAstId := ("ast_31"), thumbAstId := ("ast_32"),
             captionsAstId := ("ast_33") } }

/-- The template defaults of dbC3A as fetched at parse time. -/
def dC3 : GoMap JVal := [(("text"), .jstr ("A"))]

/-- The ParsedJob produced for rawC3 against dbC3A. -/
def pjC3 : ParsedJob :=
  { templateID := ("tpl_1"),
    inputs := [(("avatar_image_asset_id"), ("ast_A"))],
    params := [],
    mergedParams := [(("text"), .jstr ("A"))],
    hasEnvelope := true }

/-- The renderer invocation made for job_3 against dbC3A. -/
def callC3 : RendererCall :=
  .v1 ("job_3") ("tpl_1")
    [(("avatar_image_asset_id"), ("/data/jobs/job_3/inputs/avatar_image_asset_id.png"))]
    [(("text"), .jstr ("A"))]
    ("renders/job_3/hello.mp4") ("renders/job_3/hello.jpg") none

def apiC6 : ApiState := { db := dbEmpty, queue := [] }

def reqC6empty : CreateJobReq :=
  { name := (""), params := some [(("text"), .jstr (""))] }

def reqC6missing : CreateJobReq :=
  { name := (""), params := some [(("other"), .jnum 3)] }

def reqC6ok : CreateJobReq :=
  { name := (""), params := some [(("text"), .jstr ("HELLO"))] }

/-- Defaults and params of the merge witness. -/
def dC7 : GoMap JVal := [(("text"), .jstr ("default")), (("captions"), .jbool true)]

def rawC7 : GoMap JVal :=
  [(("template_id"), .jstr ("tpl_1")),
   (("params"), .jobj [(("text"), .jstr ("GALA"))])]

def dbC7 : DB :=
  { jobs := [], assets := [], jobOutputs := [],
    templates := [{ id := ("tpl_1"), deleted := false, defaults := some dC7 }] }

def pjC7 : ParsedJob :=
  { templateID := ("tpl_1"), inputs := [],
    params := [(("text"), .jstr ("GALA"))],
    mergedParams := [(("text"), .jstr ("GALA")), (("captions"), .jbool true)],
    hasEnvelope := true }

/-- Enveloped job with captions enabled whose captions file is absent. -/
def rawC8 : GoMap JVal :=
  [(("template_id"), .jstr ("tpl_1")),
   (("params"), .jobj [(("text"), .jstr ("GALA")), (("captions"), .jbool true)]),
   (("inputs"), .jobj [(("avatar_image_asset_id"), .jstr ("ast_A"))])]

def dbC8 : DB :=
  { jobs := [{ id := ("job_8"), status := .QUEUED, rawParams := some rawC8 }],
    assets := [avatarAssetRow], jobOutputs := [],
    templates := [{ id := ("tpl_1"), deleted := false,
                    defaults := some [(("text"), .jstr ("default"))] }] }

def envC8 : Env :=
  { storageRoot := ("/data"),
    fs := [("renders/job_8/hello.mp4"), ("renders/job_8/hello.jpg")],
    fileSize := fun _ => 9,
    put := fun inp => .ok { objectKey := inp.objectKey, size := inp.size },
    getOk := fun _ => true, provider := ("localfs"), cleanupLocal := false,
    renderOk := true,
    ids := { outId := ("out_8"), videoAstId := ("ast_81"), thumbAstId := ("ast_82"),
             captionsAstId := ("ast_83") } }

def pjC8 : ParsedJob :=
  { templateID := ("tpl_1"),
    inputs := [(("avatar_image_asset_id"), ("ast_A"))],
    params := [(("text"), .jstr ("GALA")), (("captions"), .jbool true)],
    mergedParams := [(("text"), .jstr ("GALA")), (("captions"), .jbool true)],
    hasEnvelope := true }

def ipsC8 : GoMap String :=
  [(("avatar_image_asset_id"), ("/data/jobs/job_8/inputs/avatar_image_asset_id.png"))]

/-- Legacy job whose thumbnail staging file is missing after the render. -/
def dbC10 : DB :=
  { jobs := [{ id := ("job_5"), status := .QUEUED,
               rawParams := some [(("text"), .jstr ("HELLO"))] }],
    assets := [], jobOutputs := [], templates := [] }

def envC10 : Env :=
  { storageRoot := ("/data"), fs := [("renders/job_5/hello.mp4")],
    fileSize := fun _ => 5,
    put := fun inp => .ok { objectKey := inp.objectKey, size := inp.size },
    getOk := fun _ => true, provider := ("localfs"), cleanupLocal := false,
    renderOk := true,
    ids := { outId := ("out_5"), videoAstId := ("ast_51"), thumbAstId := ("ast_52"),
             captionsAstId := ("ast_53") } }

def pjC10 : ParsedJob :=
  { mergedParams := [(("text"), .jstr ("HELLO"))] }

end Gala

namespace Gala

/-! # Theorems

General lemmas about the embedded Go map operations, the sanitizer and
the pipeline, followed by one theorem per claim. -/

/-! ## Go map lemmas -/

theorem lookupG_setKey_self {V : Type} (m : GoMap V) (k : String) (v : V) :
    lookupG (setKey m k v) k = some v := by
  induction m with
  | nil => simp [setKey, lookupG]
  | cons kv rest ih =>
    obtain ⟨k', v'⟩ := kv
    by_cases h : k' = k
    · simp [setKey, h, lookupG]
    · simp [setKey, h, lookupG, ih]

theorem lookupG_setKey_ne {V : Type} (m : GoMap V) (k q : String) (v : V) (h : k ≠ q) :
    lookupG (setKey m k v) q = lookupG m q := by
  induction m with
  | nil => simp [setKey, lookupG, h]
  | cons kv rest ih =>
    obtain ⟨k', v'⟩ := kv
    by_cases h' : k' = k
    · subst h'
      simp [setKey, lookupG, h]
    · simp [setKey, h', lookupG, ih]

theorem firstSome_none_right {V : Type} (a : Option V) : firstSome a none = a := by
  cases a <;> rfl

theorem lookupG_copyInto {V : Type} (src : GoMap V) (dst : GoMap V) (q : String) :
    lookupG (copyInto dst src) q = firstSome (lookupLast src q) (lookupG dst q) := by
  induction src generalizing dst with
  | nil => simp [copyInto, lookupLast, firstSome]
  | cons kv rest ih =>
    obtain ⟨k, v⟩ := kv
    have hc : copyInto dst ((k, v) :: rest) = copyInto (setKey dst k v) rest := rfl
    rw [hc, ih]
    cases hL : lookupLast rest q with
    | some w => simp [lookupLast, hL, firstSome]
    | none =>
      by_cases hk : k = q
      · subst hk
        simp [lookupLast, hL, firstSome, lookupG_setKey_self]
      · simp [lookupLast, hL, firstSome, hk, lookupG_setKey_ne _ _ _ _ hk]

theorem lookupLast_eq_none_of_not_mem {V : Type} (m : GoMap V) (q : String)
    (h : q ∉ keysOf m) : lookupLast m q = none := by
  induction m with
  | nil => rfl
  | cons kv rest ih =>
    obtain ⟨k, v⟩ := kv
    simp [keysOf] at h
    simp [lookupLast, ih (by simpa [keysOf] using h.2), Ne.symm h.1]

theorem lookupLast_eq_lookupG {V : Type} (m : GoMap V) (q : String)
    (h : (keysOf m).Nodup) : lookupLast m q = lookupG m q := by
  induction m with
  | nil => rfl
  | cons kv rest ih =>
    obtain ⟨k, v⟩ := kv
    simp [keysOf] at h
    by_cases hk : k = q
    · subst hk
      have hnone : lookupLast rest k = none :=
        lookupLast_eq_none_of_not_mem rest k (by simpa [keysOf] using h.1)
      simp [lookupLast, hnone, lookupG]
    · simp [lookupLast, lookupG, hk, ih h.2]
      cases hL : lookupG rest q <;> simp [hk]

/-- Read-back of the double copy loop of mergeMaps: override bindings win,
base bindings fill the rest, and nothing else appears. -/
theorem lookupG_mergeMaps {V : Type} (base override : GoMap V) (q : String)
    (hb : (keysOf base).Nodup) (ho : (keysOf override).Nodup) :
    lookupG (mergeMaps base override) q = firstSome (lookupG override q) (lookupG base q) := by
  unfold mergeMaps
  rw [lookupG_copyInto, lookupG_copyInto]
  simp only [lookupG, firstSome_none_right]
  rw [lookupLast_eq_lookupG _ _ hb, lookupLast_eq_lookupG _ _ ho]

/-! ## Sanitizer lemmas -/

theorem removeDotDot_cons_ne (d : Char) (t : List Char) (hd : d ≠ ('.')) :
    removeDotDot (d :: t) = d :: removeDotDot t := by
  cases t with
  | nil => rfl
  | cons e t' => simp [removeDotDot, hd]

theorem noDD_cons (c : Char) (l : List Char) (hc : c ≠ ('.')) (h : noDD l = true) :
    noDD (c :: l) = true := by
  cases l with
  | nil => rfl
  | cons d r => simp [noDD, hc, h]

theorem noDD_removeDotDot (l : List Char) : noDD (removeDotDot l) = true := by
  induction l using removeDotDot.induct with
  | case1 => rfl
  | case2 c => rfl
  | case3 c d rest h ih =>
    simpa [removeDotDot, h] using ih
  | case4 c d rest h ih =>
    have hstep : removeDotDot (c :: d :: rest) = c :: removeDotDot (d :: rest) := by
      simp [removeDotDot, h]
    rw [hstep]
    by_cases hc : c = ('.')
    · subst hc
      have hd : d ≠ ('.') := fun hd => h ⟨rfl, hd⟩
      rw [removeDotDot_cons_ne d rest hd]
      have htl : noDD (d :: removeDotDot rest) = true := by
        rw [← removeDotDot_cons_ne d rest hd]
        exact ih
      simpa [noDD, hd] using htl
    · exact noDD_cons c _ hc ih

theorem noDD_tail (a : Char) (M : List Char) (h : noDD (a :: M) = true) :
    noDD M = true := by
  cases M with
  | nil => rfl
  | cons m r =>
    by_cases hc : a = ('.') ∧ m = ('.')
    · simp [noDD, hc] at h
    · simpa [noDD, hc] using h

theorem not_infix_of_noDD (l : List Char) (h : noDD l = true) :
    ¬ List.IsInfix [('.'), ('.')] l := by
  rintro ⟨s, t, rfl⟩
  induction s with
  | nil => simp [noDD] at h
  | cons a s' ih => exact ih (noDD_tail _ _ h)

theorem noDD_map (f : Char → Char) (hf : ∀ c, f c = ('.') → c = ('.'))
    (l : List Char) (h : noDD l = true) : noDD (l.map f) = true := by
  induction l with
  | nil => rfl
  | cons c rest ih =>
    cases rest with
    | nil => rfl
    | cons d r =>
      by_cases hcd : c = ('.') ∧ d = ('.')
      · simp [noDD, hcd] at h
      · have h' : noDD (d :: r) = true := by simpa [noDD, hcd] using h
        have hfcd : ¬ (f c = ('.') ∧ f d = ('.')) := by
          rintro ⟨h1, h2⟩
          exact hcd ⟨hf c h1, hf d h2⟩
        have := ih h'
        simp only [List.map_cons] at this ⊢
        simpa [noDD, hfcd] using this

theorem noDD_replaceChar (a : Char) (l : List Char) (h : noDD l = true) :
    noDD (replaceChar a ('_') l) = true := by
  unfold replaceChar
  refine noDD_map _ ?_ l h
  intro c hc
  by_cases hca : c = a
  · rw [if_pos hca] at hc
    exact absurd hc (by decide)
  · rwa [if_neg hca] at hc

theorem mem_replaceChar {a b x : Char} {l : List Char} (hx : x ∈ replaceChar a b l) :
    x = b ∨ x ∈ l := by
  unfold replaceChar at hx
  rcases List.mem_map.mp hx with ⟨c, hc, hfc⟩
  by_cases h : c = a
  · left
    rw [← hfc, if_pos h]
  · right
    rw [← hfc, if_neg h]
    exact hc

theorem not_mem_replaceChar_self {a b : Char} (hab : b ≠ a) (l : List Char) :
    a ∉ replaceChar a b l := by
  intro hmem
  unfold replaceChar at hmem
  rcases List.mem_map.mp hmem with ⟨c, _, hfc⟩
  by_cases hca : c = a
  · rw [if_pos hca] at hfc
    exact hab hfc
  · rw [if_neg hca] at hfc
    exact hca hfc

theorem not_mem_replaceChar {a b x : Char} {l : List Char} (hx : x ∉ l) (hb : x ≠ b) :
    x ∉ replaceChar a b l := by
  intro hmem
  rcases mem_replaceChar hmem with h | h
  · exact hb h
  · exact hx h

theorem noDD_sanitizeCore (cs : List Char) : noDD (sanitizeCore cs) = true := by
  simp only [sanitizeCore]
  have h5 : noDD (replaceChar (' ') ('_') (replaceChar ('\\') ('_') (replaceChar ('/') ('_')
      (removeDotDot (trimSpaceCore cs))))) = true :=
    noDD_replaceChar _ _ (noDD_replaceChar _ _ (noDD_replaceChar _ _ (noDD_removeDotDot _)))
  split_ifs with h
  · decide
  · exact h5

theorem sanitizeCore_ne_nil (cs : List Char) : sanitizeCore cs ≠ [] := by
  simp only [sanitizeCore]
  split_ifs with h
  · decide
  · exact h

theorem slash_not_mem_sanitizeCore (cs : List Char) : ('/') ∉ sanitizeCore cs := by
  simp only [sanitizeCore]
  have h3 : ('/') ∉ replaceChar ('/') ('_') (removeDotDot (trimSpaceCore cs)) :=
    not_mem_replaceChar_self (by decide) _
  have h4 : ('/') ∉ replaceChar ('\\') ('_') (replaceChar ('/') ('_')
      (removeDotDot (trimSpaceCore cs))) :=
    not_mem_replaceChar h3 (by decide)
  have h5 : ('/') ∉ replaceChar (' ') ('_') (replaceChar ('\\') ('_') (replaceChar ('/') ('_')
      (removeDotDot (trimSpaceCore cs)))) :=
    not_mem_replaceChar h4 (by decide)
  split_ifs with h
  · decide
  · exact h5

theorem backslash_not_mem_sanitizeCore (cs : List Char) : ('\\') ∉ sanitizeCore cs := by
  simp only [sanitizeCore]
  have h4 : ('\\') ∉ replaceChar ('\\') ('_') (replaceChar ('/') ('_')
      (removeDotDot (trimSpaceCore cs))) :=
    not_mem_replaceChar_self (by decide) _
  have h5 : ('\\') ∉ replaceChar (' ') ('_') (replaceChar ('\\') ('_') (replaceChar ('/') ('_')
      (removeDotDot (trimSpaceCore cs)))) :=
    not_mem_replaceChar h4 (by decide)
  split_ifs with h
  · decide
  · exact h5

theorem extFromMime_cases (mime : String) :
    extFromMime mime = (".jpg") ∨ extFromMime mime = (".png") ∨
    extFromMime mime = (".wav") ∨ extFromMime mime = (".mp3") ∨
    extFromMime mime = (".mp4") ∨ extFromMime mime = (".vtt") ∨
    extFromMime mime = ("") := by
  unfold extFromMime
  dsimp only
  split_ifs <;> simp

theorem extFromMime_no_separators (mime : String) :
    ('/') ∉ (extFromMime mime).data ∧ ('\\') ∉ (extFromMime mime).data := by
  rcases extFromMime_cases mime with h | h | h | h | h | h | h <;> rw [h] <;>
    exact ⟨by decide, by decide⟩

theorem extFromMime_length (mime : String) :
    (extFromMime mime).data.length = 4 ∨ (extFromMime mime).data.length = 0 := by
  rcases extFromMime_cases mime with h | h | h | h | h | h | h <;> rw [h] <;>
    first
    | exact Or.inl (by decide)
    | exact Or.inr (by decide)

/-- C9: for every input name, including names containing the path
traversal sequences dot-dot, slash and backslash, the sanitized filename
is non-empty and contains no slash, no backslash and no adjacent dots;
the full on-disk filename appended with the MIME extension, exactly as
built by saveToLocal, is also non-empty, contains no path separator and
is not the dot-dot path component, so the file written by input
materialization stays strictly inside the job-scoped inputs
directory. -/
theorem C9_sanitized_filename_safe (nameCs : List Char) (mime : String) :
    sanitizeCore nameCs ≠ [] ∧
    ('/') ∉ sanitizeCore nameCs ∧
    ('\\') ∉ sanitizeCore nameCs ∧
    ¬ List.IsInfix [('.'), ('.')] (sanitizeCore nameCs) ∧
    sanitizeCore nameCs ++ (extFromMime mime).data ≠ [] ∧
    ('/') ∉ sanitizeCore nameCs ++ (extFromMime mime).data ∧
    ('\\') ∉ sanitizeCore nameCs ++ (extFromMime mime).data ∧
    sanitizeCore nameCs ++ (extFromMime mime).data ≠ [('.'), ('.')] := by
  refine ⟨sanitizeCore_ne_nil nameCs, slash_not_mem_sanitizeCore nameCs,
    backslash_not_mem_sanitizeCore nameCs,
    not_infix_of_noDD _ (noDD_sanitizeCore nameCs), ?_, ?_, ?_, ?_⟩
  · intro h
    exact sanitizeCore_ne_nil nameCs (List.append_eq_nil.mp h).1
  · intro h
    rcases List.mem_append.mp h with h | h
    · exact slash_not_mem_sanitizeCore nameCs h
    · exact (extFromMime_no_separators mime).1 h
  · intro h
    rcases List.mem_append.mp h with h | h
    · exact backslash_not_mem_sanitizeCore nameCs h
    · exact (extFromMime_no_separators mime).2 h
  · intro heq
    have hsan := noDD_sanitizeCore nameCs
    have hne := sanitizeCore_ne_nil nameCs
    have hlen : (sanitizeCore nameCs).length + (extFromMime mime).data.length = 2 := by
      have h2 := congrArg List.length heq
      simpa using h2
    have hpos : 1 ≤ (sanitizeCore nameCs).length := by
      rcases Nat.eq_zero_or_pos (sanitizeCore nameCs).length with h0 | h0
      · exact absurd (List.eq_nil_of_length_eq_zero h0) hne
      · exact h0
    rcases extFromMime_length mime with h4 | h0
    · omega
    · have hnil : (extFromMime mime).data = [] := List.eq_nil_of_length_eq_zero h0
      rw [hnil, List.append_nil] at heq
      rw [heq] at hsan
      exact absurd hsan (by decide)

/-! ## Pipeline lemmas -/

theorem find_map_updateRow (jobs : List JobRow) (jobID : String) (f : JobRow → JobRow)
    (hf : ∀ j, (f j).id = j.id) :
    (jobs.map (fun j => if j.id = jobID then f j else j)).find? (fun j => j.id = jobID) =
      (jobs.find? (fun j => j.id = jobID)).map f := by
  induction jobs with
  | nil => rfl
  | cons j rest ih =>
    by_cases hj : j.id = jobID
    · simp [List.find?, hj, hf]
    · simp [List.find?, hj, ih]

theorem findJob_updateJob (db : DB) (jobID : String) (f : JobRow → JobRow)
    (hf : ∀ j, (f j).id = j.id) :
    findJob (updateJob db jobID f) jobID = (findJob db jobID).map f :=
  find_map_updateRow db.jobs jobID f hf

theorem jobStatus_markJobDone (db : DB) (jobID : String) (row : JobRow)
    (h : findJob db jobID = some row) :
    jobStatus (markJobDone db jobID) jobID = some .DONE := by
  unfold jobStatus markJobDone
  rw [findJob_updateJob db jobID (fun j => { j with status := .DONE }) (fun j => rfl), h]
  rfl

theorem jobStatus_failJob (db : DB) (jobID : String) (msg : String) (row : JobRow)
    (h : findJob db jobID = some row) :
    jobStatus (failJob db jobID msg) jobID = some .FAILED := by
  unfold jobStatus failJob
  rw [findJob_updateJob db jobID
    (fun j => { j with status := .FAILED, errorText := some (truncateErr msg) })
    (fun j => rfl), h]
  rfl

theorem findJob_markJobRunning (db : DB) (jobID : String) :
    findJob (markJobRunning db jobID) jobID =
      (findJob db jobID).map (fun j => { j with status := .RUNNING, errorText := none }) :=
  findJob_updateJob db jobID _ (fun _ => rfl)

theorem parseLegacyFormat_not_envelope (raw : GoMap JVal) (pj : ParsedJob)
    (hp : parseLegacyFormat raw = .ok pj) : pj.hasEnvelope = false := by
  simp only [parseLegacyFormat] at hp
  split at hp
  · injection hp with h
    subst h
    rfl
  · exact Except.noConfusion hp

theorem parseEnvelopeFormat_merged (db : DB) (raw : GoMap JVal) (tid : String)
    (pj : ParsedJob) (hp : parseEnvelopeFormat db raw tid = .ok pj) :
    pj.templateID = tid ∧
    ∃ D, fetchTemplateDefaults db tid = .ok D ∧ pj.mergedParams = mergeMaps D pj.params := by
  unfold parseEnvelopeFormat at hp
  cases hf : fetchTemplateDefaults db tid with
  | error e =>
    simp only [hf] at hp
    exact Except.noConfusion hp
  | ok D =>
    simp only [hf] at hp
    split at hp
    · injection hp with h
      subst h
      exact ⟨rfl, D, rfl, rfl⟩
    · exact Except.noConfusion hp

theorem parseJob_envelope_merged (db : DB) (raw : GoMap JVal) (pj : ParsedJob)
    (hp : parseJob db raw = .ok pj) (he : pj.hasEnvelope = true) :
    ∃ D, fetchTemplateDefaults db pj.templateID = .ok D ∧
      pj.mergedParams = mergeMaps D pj.params := by
  unfold parseJob at hp
  split at hp
  · rename_i t hs
    split at hp
    · have hfalse := parseLegacyFormat_not_envelope raw pj hp
      rw [he] at hfalse
      exact Bool.noConfusion hfalse
    · obtain ⟨hTid, D, hf, hm⟩ := parseEnvelopeFormat_merged db raw _ pj hp
      rw [hTid]
      exact ⟨D, hf, hm⟩
  · have hfalse := parseLegacyFormat_not_envelope raw pj hp
    rw [he] at hfalse
    exact Bool.noConfusion hfalse

theorem captionsKeyOf_ne_empty (jobID : String) : captionsKeyOf jobID ≠ ("") := by
  intro h
  have hlen := congrArg String.length h
  rw [captionsKeyOf, String.length_append, String.length_append] at hlen
  simp at hlen
  exact absurd hlen.2 (by decide)

theorem callParams_mkRendererCall (jobID : String) (pj : ParsedJob)
    (ips : GoMap String) (keys : OutputKeys) :
    callParams (mkRendererCall jobID pj ips keys) = pj.mergedParams := by
  unfold mkRendererCall
  split_ifs <;> rfl

theorem callParams_of_mem (env : Env) (db : DB) (jobID : String) (row : JobRow)
    (raw : GoMap JVal) (pj : ParsedJob) (c : RendererCall)
    (h1 : findJob db jobID = some row) (h2 : row.rawParams = some raw)
    (h3 : parseJob db raw = .ok pj)
    (hc : c ∈ (processJob env db jobID).rendererCalls) :
    callParams c = pj.mergedParams := by
  unfold processJob at hc
  simp only [h1, h2, h3] at hc
  split at hc
  · simp at hc
  · unfold processJobParsed at hc
    cases hm : (if pj.hasEnvelope = true then
        materialize env (markJobRunning db jobID) jobID pj.inputs else Except.ok []) with
    | error e =>
      simp only [hm] at hc
      simp at hc
    | ok ips =>
      simp only [hm] at hc
      by_cases hr : env.renderOk = true
      · rw [if_pos hr] at hc
        rcases hro : registerOutputs env (markJobRunning db jobID)
            (generateOutputKeys jobID (captionsEnabled pj)) pj.hasEnvelope
            (captionsEnabled pj) with ⟨db2, res2⟩
        rcases res2 with e | r
        · simp only [hro] at hc
          simp at hc
          rw [hc]
          exact callParams_mkRendererCall _ _ _ _
        · simp only [hro] at hc
          simp at hc
          rw [hc]
          exact callParams_mkRendererCall _ _ _ _
      · rw [if_neg hr] at hc
        simp at hc
        rw [hc]
        exact callParams_mkRendererCall _ _ _ _

/-! ## Claim theorems -/

/-- C1: the claim fails on the code. markJobRunning is an unconditional
UPDATE with no QUEUED guard and ProcessJob never consults the present
status of the job row, so a duplicate delivery of an already-DONE job is
not dropped: the run writes RUNNING over the terminal status, re-renders,
inserts a second job_outputs row and finishes in DONE again. This run
was evaluated on a catalog whose job_1 is DONE with one output row. -/
theorem C1_duplicate_delivery_reenters_pipeline :
    jobStatus dbC1 ("job_1") = some .DONE ∧
    (processJob envC1 dbC1 ("job_1")).statusWrites = [.RUNNING, .DONE] ∧
    ((processJob envC1 dbC1 ("job_1")).db.jobOutputs.map (fun o => o.jobId)) =
      [("job_1"), ("job_1")] ∧
    (processJob envC1 dbC1 ("job_1")).outcome = none :=
  ⟨rfl, rfl, rfl, rfl⟩

/-- C2: every asset row inserted by registerAsset stores exactly the
object key returned by the provider put operation (the effective key),
and the remote gdrive put returns the Drive-assigned file id as that
effective key, not the logical renders path handed in. -/
theorem C2_object_key_is_effective_key (env : Env) (db : DB)
    (kind mime objectKey astId : String) (out : PutOut)
    (hfs : objectKey ∈ env.fs)
    (hput : env.put { objectKey := objectKey, contentType := mime,
                      size := env.fileSize objectKey } = .ok out) :
    registerAsset env db kind mime objectKey astId =
      ({ db with assets := db.assets ++
          [{ id := astId, kind := kind, provider := env.provider,
             objectKey := out.objectKey, mime := mime, sizeBytes := out.size }] },
       .ok (astId, out.size)) ∧
    (∀ createdId : String, ∀ inp : PutIn, inp.objectKey ≠ ("") →
      gdrivePutObject createdId inp = .ok { objectKey := createdId, size := inp.size }) := by
  constructor
  · unfold registerAsset
    rw [if_pos hfs, hput]
  · intro cid inp hk
    unfold gdrivePutObject
    rw [if_neg hk]

theorem C2_witness :
    registerAsset envC2 dbEmpty ("render_output") ("video/mp4")
        ("renders/job_9/hello.mp4") ("ast_9") =
      ({ dbEmpty with assets :=
          [{ id := ("ast_9"), kind := ("render_output"), provider := ("gdrive"),
             objectKey := ("DRIVE-123"), mime := ("video/mp4"), sizeBytes := 7 }] },
       .ok (("ast_9"), 7)) ∧
    gdrivePutObject ("DRIVE-123")
        { objectKey := ("renders/job_9/hello.mp4"), contentType := ("video/mp4"),
          size := 7 } =
      .ok { objectKey := ("DRIVE-123"), size := 7 } :=
  ⟨(C2_object_key_is_effective_key envC2 dbEmpty ("render_output") ("video/mp4")
      ("renders/job_9/hello.mp4") ("ast_9")
      { objectKey := ("DRIVE-123"), size := 7 } (by decide) rfl).1,
   (C2_object_key_is_effective_key envC2 dbEmpty ("render_output") ("video/mp4")
      ("renders/job_9/hello.mp4") ("ast_9")
      { objectKey := ("DRIVE-123"), size := 7 } (by decide) rfl).2
     ("DRIVE-123")
     { objectKey := ("renders/job_9/hello.mp4"), contentType := ("video/mp4"), size := 7 }
     (by decide)⟩

/-- C4 counterexample: when the pop context deadline expires with no
element available, the queue pop returns an error, not an empty result,
and the worker supervision loop takes the error path (warn, one-second
sleep, retry) instead of re-entering immediately. -/
theorem C4_counterexample_timeout_is_error :
    redisQueuePop .deadlineExceeded = .error ("context deadline exceeded") ∧
    redisQueuePop .deadlineExceeded ≠ .ok ("") ∧
    workerHandlePop false (redisQueuePop .deadlineExceeded) = .retryAfterSleep :=
  ⟨rfl, fun h => Except.noConfusion h, rfl⟩

/-- C4 amended: a pop that reaches its context deadline returns the
deadline error; the worker loop with a live parent context reacts to a
pop error by logging, sleeping one second and re-entering (it exits only
when the parent context is cancelled); an empty pop result arises from a
BRPOP reply shorter than a key-value pair and also just re-enters. -/
theorem C4_amended_pop_error_path (o : PopCtxOutcome) (m : String) :
    redisQueuePop .deadlineExceeded = .error ("context deadline exceeded") ∧
    workerHandlePop false (.error m) = .retryAfterSleep ∧
    workerHandlePop true (.error m) = .stopCancelled ∧
    (isShortReply o = true → redisQueuePop o = .ok ("")) ∧
    workerHandlePop false (.ok ("")) = .reenterEmpty := by
  refine ⟨rfl, rfl, rfl, ?_, rfl⟩
  intro h
  cases o with
  | deadlineExceeded => exact absurd h (by decide)
  | elementArrived r =>
    have hr : r.length < 2 := by simpa [isShortReply] using h
    show (if r.length < 2 then Except.ok ("") else Except.ok ((r[1]?).getD (""))) =
      Except.ok ("")
    rw [if_pos hr]

theorem C4_amended_witness :
    redisQueuePop .deadlineExceeded = .error ("context deadline exceeded") ∧
    workerHandlePop false (.error ("context deadline exceeded")) = .retryAfterSleep ∧
    redisQueuePop (.elementArrived []) = .ok ("") :=
  ⟨(C4_amended_pop_error_path (.elementArrived []) ("context deadline exceeded")).1,
   (C4_amended_pop_error_path (.elementArrived []) ("context deadline exceeded")).2.1,
   (C4_amended_pop_error_path (.elementArrived []) ("context deadline exceeded")).2.2.2.1
     (by decide)⟩

/-- C5: the claim fails on the code while the spec states the intended
provider contract. localfs DeleteObject is a bare os.Remove of the
resolved path, so deleting a key with no object present returns the
not-exist error instead of succeeding; of two consecutive deletes of the
same existing key the first succeeds and the second fails. -/
theorem C5_delete_errors_on_absent_key :
    (localfsDeleteObject [("/data/renders/job_1/hello.mp4")] ("/data")
        ("renders/job_1/hello.mp4")).isOk = true ∧
    (localfsDeleteObject [] ("/data") ("renders/job_1/hello.mp4")).isOk = false ∧
    localfsDeleteObject [] ("/data") ("renders/job_1/hello.mp4") =
      .error (("remove ") ++ localfsAbs ("/data") ("renders/job_1/hello.mp4") ++
        (": no such file or directory")) := by
  refine ⟨by decide, by decide, ?_⟩
  unfold localfsDeleteObject osRemove
  rw [if_neg (by decide)]

/-- C3 counterexample: one job (identical job rows, raw params unchanged
since creation) is processed against two catalogs that differ only in
the template defaults, the edit having happened after the job was
created but before the worker parsed it; the text sent to the renderer
differs, so the edit did change the job's merged params. -/
theorem C3_counterexample_edit_before_parse :
    dbC3A.jobs = dbC3B.jobs ∧
    sentTexts (processJob envC3 dbC3A ("job_3")) = [("A")] ∧
    sentTexts (processJob envC3 dbC3B ("job_3")) = [("B")] ∧
    sentTexts (processJob envC3 dbC3A ("job_3")) ≠
      sentTexts (processJob envC3 dbC3B ("job_3")) := by
  refine ⟨rfl, rfl, rfl, ?_⟩
  intro h
  rw [show sentTexts (processJob envC3 dbC3A ("job_3")) = [("A")] from rfl,
      show sentTexts (processJob envC3 dbC3B ("job_3")) = [("B")] from rfl] at h
  exact absurd h (by decide)

/-- C3 amended: template defaults are snapshotted at worker parse time,
not at job creation: every params object sent to the renderer for an
enveloped job is exactly the job's parsed merged params, which equal the
template defaults as fetched at parse time overlaid with the job's own
params; an edit of the defaults after the parse therefore cannot change
the job's merged params, while an edit between job creation and the
worker's parse does. -/
theorem C3_amended_snapshot_at_parse_time (env : Env) (db : DB) (jobID : String)
    (row : JobRow) (raw : GoMap JVal) (pj : ParsedJob) (D : GoMap JVal) (c : RendererCall)
    (h1 : findJob db jobID = some row) (h2 : row.rawParams = some raw)
    (h3 : parseJob db raw = .ok pj) (h4 : pj.hasEnvelope = true)
    (h5 : fetchTemplateDefaults db pj.templateID = .ok D)
    (hc : c ∈ (processJob env db jobID).rendererCalls) :
    callParams c = pj.mergedParams ∧ pj.mergedParams = mergeMaps D pj.params := by
  refine ⟨callParams_of_mem env db jobID row raw pj c h1 h2 h3 hc, ?_⟩
  obtain ⟨D', hf, hm⟩ := parseJob_envelope_merged db raw pj h3 h4
  rw [h5] at hf
  injection hf with hDD
  rw [hm, hDD]

theorem C3_amended_witness :
    callParams callC3 = pjC3.mergedParams ∧ pjC3.mergedParams = mergeMaps dC3 pjC3.params :=
  C3_amended_snapshot_at_parse_time envC3 dbC3A ("job_3")
    { id := ("job_3"), status := .QUEUED, rawParams := some rawC3 }
    rawC3 pjC3 dC3 callC3 rfl rfl rfl rfl rfl
    (by rw [show (processJob envC3 dbC3A ("job_3")).rendererCalls = [callC3] from rfl]
        exact List.mem_singleton.mpr rfl)

/-- C6 counterexample: a POST /jobs whose params.text is present but is
the empty string is accepted: the handler answers created, inserts the
job in QUEUED and pushes its id, instead of answering 400 with
VALIDATION_ERROR and creating no job. -/
theorem C6_counterexample_empty_text_accepted :
    (postJob apiC6 ("job_9") (some reqC6empty)).2 = .createdOk ("job_9") ∧
    jobStatus (postJob apiC6 ("job_9") (some reqC6empty)).1.db ("job_9") = some .QUEUED ∧
    (postJob apiC6 ("job_9") (some reqC6empty)).1.queue = [("job_9")] :=
  ⟨rfl, rfl, rfl⟩

/-- C6 amended: the submit-time check is presence-only: a request whose
params lack the text key is rejected 400 VALIDATION_ERROR with no insert
and no push; any request whose params contain the text key, the empty
string included, is accepted and creates the job in QUEUED with one
queue push; a blank text is rejected later by the worker-side parser,
which fails with the text-required validation error. -/
theorem C6_amended_presence_only_validation (st : ApiState) (newJobId : String)
    (req : CreateJobReq) :
    ((lookupG (req.params.getD []) ("text")).isNone = true →
      postJob st newJobId (some req) =
        (st, .validationError ("params.text is required") ("params.text"))) ∧
    ((lookupG (req.params.getD []) ("text")).isNone = false →
      postJob st newJobId (some req) =
        ({ db := { st.db with jobs := st.db.jobs ++
              [{ id := newJobId, status := .QUEUED,
                 rawParams := some (req.params.getD []) }] },
           queue := newJobId :: st.queue },
         .createdOk newJobId)) ∧
    parseLegacyFormat [(("text"), .jstr (""))] = .error .textRequired := by
  refine ⟨?_, ?_, rfl⟩
  · intro h
    have hn : lookupG (req.params.getD []) ("text") = none :=
      Option.isNone_iff_eq_none.mp h
    unfold postJob
    simp only [hn]
  · intro h
    cases hv : lookupG (req.params.getD []) ("text") with
    | none => rw [hv] at h; exact absurd h (by decide)
    | some v =>
      unfold postJob
      simp only [hv]

theorem C6_amended_witness :
    postJob apiC6 ("job_8") (some reqC6missing) =
      (apiC6, .validationError ("params.text is required") ("params.text")) ∧
    postJob apiC6 ("job_9") (some reqC6ok) =
      ({ db := { apiC6.db with jobs := apiC6.db.jobs ++
            [{ id := ("job_9"), status := .QUEUED,
               rawParams := some (reqC6ok.params.getD []) }] },
         queue := ("job_9") :: apiC6.queue },
       .createdOk ("job_9")) :=
  ⟨(C6_amended_presence_only_validation apiC6 ("job_8") reqC6missing).1 rfl,
   (C6_amended_presence_only_validation apiC6 ("job_9") reqC6ok).2.1 rfl⟩

/-- C7: for an enveloped job whose template defaults are D and whose
parsed job params are P (both carrying the distinct keys of a Go map),
the parser's merged params read back at every key as P's binding when P
has one, else D's binding when D has one, and as absent otherwise, so
job-provided keys win on conflict and no key outside the union of the
two key sets appears. -/
theorem C7_merged_params_characterization (db : DB) (raw : GoMap JVal) (tid : String)
    (pj : ParsedJob) (D : GoMap JVal) (k : String)
    (hparse : parseEnvelopeFormat db raw tid = .ok pj)
    (hfetch : fetchTemplateDefaults db tid = .ok D)
    (hD : (keysOf D).Nodup) (hP : (keysOf pj.params).Nodup) :
    lookupG pj.mergedParams k = firstSome (lookupG pj.params k) (lookupG D k) := by
  unfold parseEnvelopeFormat at hparse
  simp only [hfetch] at hparse
  split at hparse
  · injection hparse with hpj
    subst hpj
    exact lookupG_mergeMaps D _ k hD hP
  · exact Except.noConfusion hparse

/-- C8: for an enveloped job with captions enabled whose mandatory video
and thumbnail staging files exist and upload fine but whose local
captions file is absent when outputs are registered, no captions asset
row is created, the job output row is written with a NULL captions asset
id, and the job still transitions to DONE. -/
theorem C8_missing_captions_file_still_done (env : Env) (db : DB) (jobID : String)
    (row : JobRow) (raw : GoMap JVal) (pj : ParsedJob) (ips : GoMap String)
    (outV outT : PutOut)
    (h1 : findJob db jobID = some row) (h2 : row.rawParams = some raw)
    (h3 : parseJob db raw = .ok pj) (h4 : pj.hasEnvelope = true)
    (h5 : ¬ goTrim ((lookupG pj.inputs ("avatar_image_asset_id")).getD ("")) = (""))
    (h6 : captionsEnabled pj = true)
    (h7 : materialize env (markJobRunning db jobID) jobID pj.inputs = .ok ips)
    (h8 : env.renderOk = true)
    (h9 : videoKeyOf jobID ∈ env.fs)
    (h10 : env.put { objectKey := videoKeyOf jobID, contentType := ("video/mp4"),
                     size := env.fileSize (videoKeyOf jobID) } = .ok outV)
    (h11 : thumbKeyOf jobID ∈ env.fs)
    (h12 : env.put { objectKey := thumbKeyOf jobID, contentType := ("image/jpeg"),
                     size := env.fileSize (thumbKeyOf jobID) } = .ok outT)
    (h13 : captionsKeyOf jobID ∉ env.fs) :
    (processJob env db jobID).outcome = none ∧
    (processJob env db jobID).statusWrites = [.RUNNING, .DONE] ∧
    jobStatus (processJob env db jobID).db jobID = some .DONE ∧
    (processJob env db jobID).db.jobOutputs =
      db.jobOutputs ++
        [{ id := env.ids.outId, jobId := jobID, variant := 1,
           videoAssetId := env.ids.videoAstId, thumbnailAssetId := env.ids.thumbAstId,
           captionsAssetId := none }] ∧
    (processJob env db jobID).db.assets =
      db.assets ++
        [{ id := env.ids.videoAstId, kind := ("render_output"), provider := env.provider,
           objectKey := outV.objectKey, mime := ("video/mp4"), sizeBytes := outV.size },
         { id := env.ids.thumbAstId, kind := ("thumbnail"), provider := env.provider,
           objectKey := outT.objectKey, mime := ("image/jpeg"), sizeBytes := outT.size }] := by
  have hkeys : generateOutputKeys jobID (captionsEnabled pj) =
      { video := videoKeyOf jobID, thumb := thumbKeyOf jobID,
        captions := captionsKeyOf jobID } := by
    simp [generateOutputKeys, h6]
  have hra1 : registerAsset env (markJobRunning db jobID) ("render_output") ("video/mp4")
      (videoKeyOf jobID) env.ids.videoAstId =
      ({ markJobRunning db jobID with assets := (markJobRunning db jobID).assets ++
          [{ id := env.ids.videoAstId, kind := ("render_output"), provider := env.provider,
             objectKey := outV.objectKey, mime := ("video/mp4"), sizeBytes := outV.size }] },
       .ok (env.ids.videoAstId, outV.size)) := by
    unfold registerAsset
    rw [if_pos h9, h10]
  have hra2 : registerAsset env
      ({ markJobRunning db jobID with assets := (markJobRunning db jobID).assets ++
          [{ id := env.ids.videoAstId, kind := ("render_output"), provider := env.provider,
             objectKey := outV.objectKey, mime := ("video/mp4"), sizeBytes := outV.size }] })
      ("thumbnail") ("image/jpeg") (thumbKeyOf jobID) env.ids.thumbAstId =
      ({ markJobRunning db jobID with assets := ((markJobRunning db jobID).assets ++
          [{ id := env.ids.videoAstId, kind := ("render_output"), provider := env.provider,
             objectKey := outV.objectKey, mime := ("video/mp4"), sizeBytes := outV.size }]) ++
          [{ id := env.ids.thumbAstId, kind := ("thumbnail"), provider := env.provider,
             objectKey := outT.objectKey, mime := ("image/jpeg"), sizeBytes := outT.size }] },
       .ok (env.ids.thumbAstId, outT.size)) := by
    unfold registerAsset
    rw [if_pos h11, h12]
  have hro : registerOutputs env (markJobRunning db jobID)
      { video := videoKeyOf jobID, thumb := thumbKeyOf jobID,
        captions := captionsKeyOf jobID } true (captionsEnabled pj) =
      ({ markJobRunning db jobID with assets := ((markJobRunning db jobID).assets ++
          [{ id := env.ids.videoAstId, kind := ("render_output"), provider := env.provider,
             objectKey := outV.objectKey, mime := ("video/mp4"), sizeBytes := outV.size }]) ++
          [{ id := env.ids.thumbAstId, kind := ("thumbnail"), provider := env.provider,
             objectKey := outT.objectKey, mime := ("image/jpeg"), sizeBytes := outT.size }] },
       .ok { outputId := env.ids.outId, videoAssetId := env.ids.videoAstId,
             thumbAssetId := env.ids.thumbAstId, captionsAssetId := ("") }) := by
    unfold registerOutputs
    simp only [hra1, hra2]
    rw [if_pos ⟨trivial, h6, captionsKeyOf_ne_empty jobID⟩, if_neg h13]
  have hmat : (if pj.hasEnvelope = true then
      materialize env (markJobRunning db jobID) jobID pj.inputs else Except.ok []) =
      .ok ips := by
    rw [h4, if_pos rfl]
    exact h7
  have hrun : processJob env db jobID = processJobParsed env db jobID pj := by
    unfold processJob
    simp only [h1, h2, h3]
    rw [if_neg (fun hcond => h5 hcond.2)]
  have hrun2 : processJobParsed env db jobID pj =
      { db := markJobDone
          { markJobRunning db jobID with
            assets := ((markJobRunning db jobID).assets ++
              [{ id := env.ids.videoAstId, kind := ("render_output"),
                 provider := env.provider, objectKey := outV.objectKey,
                 mime := ("video/mp4"), sizeBytes := outV.size }]) ++
              [{ id := env.ids.thumbAstId, kind := ("thumbnail"),
                 provider := env.provider, objectKey := outT.objectKey,
                 mime := ("image/jpeg"), sizeBytes := outT.size }],
            jobOutputs := (markJobRunning db jobID).jobOutputs ++
              [{ id := env.ids.outId, jobId := jobID, variant := 1,
                 videoAssetId := env.ids.videoAstId,
                 thumbnailAssetId := env.ids.thumbAstId,
                 captionsAssetId := nullIfEmpty ("") }] } jobID,
        statusWrites := [.RUNNING, .DONE],
        rendererCalls := [mkRendererCall jobID pj ips
          { video := videoKeyOf jobID, thumb := thumbKeyOf jobID,
            captions := captionsKeyOf jobID }],
        outcome := none } := by
    simp only [processJobParsed]
    rw [hkeys]
    simp only [hmat]
    rw [if_pos h8, h4]
    simp only [hro]
  rw [hrun, hrun2]
  refine ⟨rfl, rfl, ?_, ?_, ?_⟩
  · have hfind : findJob
        { markJobRunning db jobID with
          assets := ((markJobRunning db jobID).assets ++
            [{ id := env.ids.videoAstId, kind := ("render_output"),
               provider := env.provider, objectKey := outV.objectKey,
               mime := ("video/mp4"), sizeBytes := outV.size }]) ++
            [{ id := env.ids.thumbAstId, kind := ("thumbnail"),
               provider := env.provider, objectKey := outT.objectKey,
               mime := ("image/jpeg"), sizeBytes := outT.size }],
          jobOutputs := (markJobRunning db jobID).jobOutputs ++
            [{ id := env.ids.outId, jobId := jobID, variant := 1,
               videoAssetId := env.ids.videoAstId,
               thumbnailAssetId := env.ids.thumbAstId,
               captionsAssetId := nullIfEmpty ("") }] } jobID =
        some ({ row with status := .RUNNING, errorText := none }) := by
      show findJob (markJobRunning db jobID) jobID = _
      rw [findJob_markJobRunning, h1]
      rfl
    exact jobStatus_markJobDone _ _ _ hfind
  · rfl
  · show ((markJobRunning db jobID).assets ++ _) ++ _ = _
    rw [List.append_assoc]
    rfl

theorem C8_witness :
    (processJob envC8 dbC8 ("job_8")).outcome = none ∧
    (processJob envC8 dbC8 ("job_8")).statusWrites = [.RUNNING, .DONE] ∧
    jobStatus (processJob envC8 dbC8 ("job_8")).db ("job_8") = some .DONE ∧
    (processJob envC8 dbC8 ("job_8")).db.jobOutputs =
      dbC8.jobOutputs ++
        [{ id := ("out_8"), jobId := ("job_8"), variant := 1,
           videoAssetId := ("ast_81"), thumbnailAssetId := ("ast_82"),
           captionsAssetId := none }] ∧
    (processJob envC8 dbC8 ("job_8")).db.assets =
      dbC8.assets ++
        [{ id := ("ast_81"), kind := ("render_output"), provider := ("localfs"),
           objectKey := videoKeyOf ("job_8"), mime := ("video/mp4"), sizeBytes := 9 },
         { id := ("ast_82"), kind := ("thumbnail"), provider := ("localfs"),
           objectKey := thumbKeyOf ("job_8"), mime := ("image/jpeg"), sizeBytes := 9 }] :=
  C8_missing_captions_file_still_done envC8 dbC8 ("job_8")
    { id := ("job_8"), status := .QUEUED, rawParams := some rawC8 }
    rawC8 pjC8 ipsC8
    { objectKey := videoKeyOf ("job_8"), size := 9 }
    { objectKey := thumbKeyOf ("job_8"), size := 9 }
    rfl rfl rfl rfl (by decide) rfl rfl rfl (by decide) rfl (by decide) rfl (by decide)

/-- C10: output registration is not atomic over the assets table: when
registering the thumbnail fails (its staging file is missing) after the
video asset row was already inserted, the job is marked FAILED, no
job_outputs row is written, and the already-inserted video asset row
remains in the assets table, referenced by no job output (its id being
fresh); the insert is never rolled back. -/
theorem C10_asset_inserts_not_rolled_back (env : Env) (db : DB) (jobID : String)
    (row : JobRow) (raw : GoMap JVal) (pj : ParsedJob) (ips : GoMap String)
    (outV : PutOut)
    (h1 : findJob db jobID = some row) (h2 : row.rawParams = some raw)
    (h3 : parseJob db raw = .ok pj)
    (hAv : ¬ (pj.hasEnvelope = true ∧
      goTrim ((lookupG pj.inputs ("avatar_image_asset_id")).getD ("")) = ("")))
    (hmat : (if pj.hasEnvelope = true then
      materialize env (markJobRunning db jobID) jobID pj.inputs else Except.ok []) =
      .ok ips)
    (h8 : env.renderOk = true)
    (h9 : videoKeyOf jobID ∈ env.fs)
    (h10 : env.put { objectKey := videoKeyOf jobID, contentType := ("video/mp4"),
                     size := env.fileSize (videoKeyOf jobID) } = .ok outV)
    (h11 : thumbKeyOf jobID ∉ env.fs)
    (hfresh : db.jobOutputs.all (fun o => !(o.videoAssetId == env.ids.videoAstId)) = true) :
    (processJob env db jobID).outcome =
      some (.outputsFailed (.fileNotFound (thumbKeyOf jobID))) ∧
    (processJob env db jobID).statusWrites = [.RUNNING, .FAILED] ∧
    jobStatus (processJob env db jobID).db jobID = some .FAILED ∧
    (processJob env db jobID).db.jobOutputs = db.jobOutputs ∧
    (processJob env db jobID).db.assets = db.assets ++
      [{ id := env.ids.videoAstId, kind := ("render_output"), provider := env.provider,
         objectKey := outV.objectKey, mime := ("video/mp4"), sizeBytes := outV.size }] ∧
    (processJob env db jobID).db.jobOutputs.all
      (fun o => !(o.videoAssetId == env.ids.videoAstId)) = true := by
  have hra1 : registerAsset env (markJobRunning db jobID) ("render_output") ("video/mp4")
      (videoKeyOf jobID) env.ids.videoAstId =
      ({ markJobRunning db jobID with assets := (markJobRunning db jobID).assets ++
          [{ id := env.ids.videoAstId, kind := ("render_output"), provider := env.provider,
             objectKey := outV.objectKey, mime := ("video/mp4"), sizeBytes := outV.size }] },
       .ok (env.ids.videoAstId, outV.size)) := by
    unfold registerAsset
    rw [if_pos h9, h10]
  have hra2 : registerAsset env
      ({ markJobRunning db jobID with assets := (markJobRunning db jobID).assets ++
          [{ id := env.ids.videoAstId, kind := ("render_output"), provider := env.provider,
             objectKey := outV.objectKey, mime := ("video/mp4"), sizeBytes := outV.size }] })
      ("thumbnail") ("image/jpeg") (thumbKeyOf jobID) env.ids.thumbAstId =
      ({ markJobRunning db jobID with assets := (markJobRunning db jobID).assets ++
          [{ id := env.ids.videoAstId, kind := ("render_output"), provider := env.provider,
             objectKey := outV.objectKey, mime := ("video/mp4"), sizeBytes := outV.size }] },
       .error (.fileNotFound (thumbKeyOf jobID))) := by
    unfold registerAsset
    rw [if_neg h11]
  have hro : registerOutputs env (markJobRunning db jobID)
      (generateOutputKeys jobID (captionsEnabled pj)) pj.hasEnvelope (captionsEnabled pj) =
      ({ markJobRunning db jobID with assets := (markJobRunning db jobID).assets ++
          [{ id := env.ids.videoAstId, kind := ("render_output"), provider := env.provider,
             objectKey := outV.objectKey, mime := ("video/mp4"), sizeBytes := outV.size }] },
       .error (.fileNotFound (thumbKeyOf jobID))) := by
    unfold registerOutputs
    simp only [generateOutputKeys]
    simp only [hra1, hra2]
  have hrun : processJob env db jobID = processJobParsed env db jobID pj := by
    unfold processJob
    simp only [h1, h2, h3]
    rw [if_neg hAv]
  have hrun2 : processJobParsed env db jobID pj =
      { db := failJob
          { markJobRunning db jobID with assets := (markJobRunning db jobID).assets ++
              [{ id := env.ids.videoAstId, kind := ("render_output"),
                 provider := env.provider, objectKey := outV.objectKey,
                 mime := ("video/mp4"), sizeBytes := outV.size }] } jobID
          ("processor.outputs: failed to register outputs"),
        statusWrites := [.RUNNING, .FAILED],
        rendererCalls := [mkRendererCall jobID pj ips
          (generateOutputKeys jobID (captionsEnabled pj))],
        outcome := some (.outputsFailed (.fileNotFound (thumbKeyOf jobID))) } := by
    simp only [processJobParsed]
    simp only [hmat]
    rw [if_pos h8]
    simp only [hro]
  rw [hrun, hrun2]
  refine ⟨rfl, rfl, ?_, rfl, rfl, ?_⟩
  · have hfind : findJob
        { markJobRunning db jobID with assets := (markJobRunning db jobID).assets ++
            [{ id := env.ids.videoAstId, kind := ("render_output"),
               provider := env.provider, objectKey := outV.objectKey,
               mime := ("video/mp4"), sizeBytes := outV.size }] } jobID =
        some ({ row with status := .RUNNING, errorText := none }) := by
      show findJob (markJobRunning db jobID) jobID = _
      rw [findJob_markJobRunning, h1]
      rfl
    exact jobStatus_failJob _ _ _ _ hfind
  · exact hfresh

theorem C10_witness :
    (processJob envC10 dbC10 ("job_5")).outcome =
      some (.outputsFailed (.fileNotFound (thumbKeyOf ("job_5")))) ∧
    (processJob envC10 dbC10 ("job_5")).statusWrites = [.RUNNING, .FAILED] ∧
    jobStatus (processJob envC10 dbC10 ("job_5")).db ("job_5") = some .FAILED ∧
    (processJob envC10 dbC10 ("job_5")).db.jobOutputs = dbC10.jobOutputs ∧
    (processJob envC10 dbC10 ("job_5")).db.assets = dbC10.assets ++
      [{ id := ("ast_51"), kind := ("render_output"), provider := ("localfs"),
         objectKey := videoKeyOf ("job_5"), mime := ("video/mp4"), sizeBytes := 5 }] ∧
    (processJob envC10 dbC10 ("job_5")).db.jobOutputs.all
      (fun o => !(o.videoAssetId == ("ast_51"))) = true :=
  C10_asset_inserts_not_rolled_back envC10 dbC10 ("job_5")
    { id := ("job_5"), status := .QUEUED,
      rawParams := some [(("text"), .jstr ("HELLO"))] }
    [(("text"), .jstr ("HELLO"))] pjC10 []
    { objectKey := videoKeyOf ("job_5"), size := 5 }
    rfl rfl rfl (by decide) rfl rfl (by decide) rfl (by decide) rfl

theorem C7_witness :
    lookupG pjC7.mergedParams ("text") =
      firstSome (lookupG pjC7.params ("text")) (lookupG dC7 ("text")) ∧
    lookupG pjC7.mergedParams ("captions") =
      firstSome (lookupG pjC7.params ("captions")) (lookupG dC7 ("captions")) ∧
    lookupG pjC7.mergedParams ("other") =
      firstSome (lookupG pjC7.params ("other")) (lookupG dC7 ("other")) :=
  ⟨C7_merged_params_characterization dbC7 rawC7 ("tpl_1") pjC7 dC7 ("text")
     rfl rfl (by decide) (by decide),
   C7_merged_params_characterization dbC7 rawC7 ("tpl_1") pjC7 dC7 ("captions")
     rfl rfl (by decide) (by decide),
   C7_merged_params_characterization dbC7 rawC7 ("tpl_1") pjC7 dC7 ("other")
     rfl rfl (by decide) (by decide)⟩

end Gala
